import Mathlib

/-!
Shallow embedding of the scoring engine and event-window logic of
`generate_weather_calendar.py` (the full seven-factor pipeline of the
weatherfeed_styrum repository; the spec names this pipeline as the
canonical core).

Modelling conventions:
* Python floats are modelled as exact rationals (`ℚ`); every arithmetic
  operation the scoring code performs (weighted sums, divisions by
  constants, comparisons) is exact rational arithmetic.
* Python `Optional[float]` / `Optional[int]` become `Option ℚ` / `Option ℤ`.
* `round` is Python 3 `round` (banker's rounding, half to even), modelled
  by `pyRound`; `int(...)` truncation toward zero is `int_trunc`.
* Timestamps: `datetime.fromisoformat` is a Python standard-library
  parser external to the repository, so a raw `time`-array entry is
  represented by its parse result, `Option ℤ` — `none` for a malformed
  entry, `some t` for a timestamp `t` counted in seconds of naive local
  time (so the local clock-hour component of `t` is `(t / 3600) % 24`).
-/

/-! ### Definitions: scoring engine -/

/-- Python `clamp(value, lo, hi) = max(lo, min(hi, value))` from the source. -/
def clamp (value lo hi : ℚ) : ℚ := max lo (min hi value)

/-- `map_weather_code_to_icon` of generate_weather_calendar.py: WMO code → icon. -/
def map_weather_code_to_icon (code : ℤ) : String :=
  if code = 0 then "🌞"
  else if code = 1 ∨ code = 2 ∨ code = 3 then "⛅"
  else if code = 45 ∨ code = 48 then "🌁"
  else if code = 51 ∨ code = 53 ∨ code = 55 ∨ code = 56 ∨ code = 57 then "🌧️"
  else if code = 61 ∨ code = 63 ∨ code = 65 ∨ code = 80 ∨ code = 81 ∨ code = 82 then "🌧️"
  else if code = 66 ∨ code = 67 then "🌧️❄️"
  else if code = 71 ∨ code = 73 ∨ code = 75 ∨ code = 77 ∨ code = 85 ∨ code = 86 then "🌨️"
  else if code = 95 then "⛈️"
  else if code = 96 ∨ code = 99 then "🌩️❄️"
  else "❔"

/-- `map_weather_code_to_description` of generate_weather_calendar.py. -/
def map_weather_code_to_description (code : ℤ) : String :=
  if code = 0 then "sonnig"
  else if code = 1 ∨ code = 2 ∨ code = 3 then "bewölkt"
  else if code = 45 ∨ code = 48 then "neblig"
  else if code = 51 ∨ code = 53 ∨ code = 55 ∨ code = 56 ∨ code = 57 then "Nieselregen"
  else if code = 61 ∨ code = 63 ∨ code = 65 ∨ code = 80 ∨ code = 81 ∨ code = 82 then "regnerisch"
  else if code = 66 ∨ code = 67 then "gefrierender Regen"
  else if code = 71 ∨ code = 73 ∨ code = 75 ∨ code = 77 ∨ code = 85 ∨ code = 86 then "schneit"
  else if code = 95 then "Gewitter"
  else if code = 96 ∨ code = 99 then "Gewitter mit Hagel"
  else "unbekannt"

/-- `therm_comfort_score`: thermal comfort from apparent temperature. -/
def therm_comfort_score (apparent_temp : Option ℚ) : ℚ :=
  match apparent_temp with
  | none => 5
  | some Ta =>
    let val := 1 - max 0 (|Ta - 14| - 6) / 12
    clamp val 0 1 * 10

/-- `precip_score`: precipitation factor from amount, probability and code. -/
def precip_score (precip_mm precip_prob : Option ℚ) (weathercode : Option ℤ) : ℚ :=
  if weathercode = some 66 ∨ weathercode = some 67 ∨ weathercode = some 95 ∨
     weathercode = some 96 ∨ weathercode = some 99 then 0
  else
    match precip_mm, precip_prob with
    | some pm, some pp =>
      let E := pm * pp / 100
      if E ≤ 0 then 10
      else if 2 ≤ E then 0
      else 10 * (1 - E / 2)
    | _, _ => 6

/-- `wind_score`: wind factor from mean speed and gusts. -/
def wind_score (wind_speed wind_gust : Option ℚ) : ℚ :=
  let base : ℚ :=
    match wind_speed with
    | none => 6
    | some ws =>
      if ws ≤ 10 then 10
      else if 40 ≤ ws then 0
      else 10 * (1 - (ws - 10) / 30)
  match wind_gust with
  | none => clamp base 0 10
  | some gust =>
    let gustyB : Bool := match wind_speed with
      | some ws => decide (20 < gust - ws)
      | none => false
    let malus : ℚ := (if 60 < gust then 3 else 0) + (if gustyB then 3 else 0)
    clamp (base - malus) 0 10

/-- `uv_score`: UV-index step function. -/
def uv_score (uv_index : Option ℚ) : ℚ :=
  match uv_index with
  | none => 6
  | some uv =>
    if uv ≤ 3 then 10
    else if uv ≤ 5 then 7
    else if uv ≤ 7 then 4
    else if uv ≤ 9 then 2
    else 0

/-- `visibility_score`: visibility factor, with a light cap under fog codes. -/
def visibility_score (visibility_m : Option ℚ) (weathercode : Option ℤ) : ℚ :=
  match visibility_m with
  | none => 6
  | some v =>
    let km := v / 1000
    let base : ℚ :=
      if 8 ≤ km then 10
      else if km ≤ 1 then 0
      else 10 * (km - 1) / (8 - 1)
    let base := if weathercode = some 45 ∨ weathercode = some 48 then min base 8 else base
    clamp base 0 10

/-- `humidity_dewpoint_score`: dew-point comfort factor. -/
def humidity_dewpoint_score (dew_point_c : Option ℚ) : ℚ :=
  match dew_point_c with
  | none => 6
  | some dp =>
    if 7 ≤ dp ∧ dp ≤ 13 then 10
    else if 13 < dp then
      if 22 ≤ dp then 0
      else 10 * (1 - (dp - 13) / (22 - 13))
    else
      if dp ≤ -10 then 0
      else 10 * ((dp - (-10)) / (7 - (-10)))

/-- `code_baseline_score`: baseline comfort/traction lookup by condition code. -/
def code_baseline_score (weathercode : Option ℤ) : ℚ :=
  match weathercode with
  | none => 6
  | some c =>
    if c = 0 then 10
    else if c = 1 ∨ c = 2 ∨ c = 3 then 9
    else if c = 45 ∨ c = 48 then 5
    else if c = 51 ∨ c = 53 ∨ c = 55 ∨ c = 61 ∨ c = 80 then 6
    else if c = 56 ∨ c = 57 ∨ c = 63 ∨ c = 65 ∨ c = 81 ∨ c = 82 ∨
            c = 71 ∨ c = 73 ∨ c = 75 ∨ c = 77 ∨ c = 85 ∨ c = 86 then 2
    else if c = 66 ∨ c = 67 then 0.5
    else if c = 95 ∨ c = 96 ∨ c = 99 then 0
    else 5

/-- The ice-risk test of `apply_safety_caps`: air temperature present and
≤ −2 °C, and precipitation amount present and > 0. -/
def ice_risk (temp_c precip_mm : Option ℚ) : Bool :=
  match temp_c, precip_mm with
  | some t, some p => decide (t ≤ -2) && decide (0 < p)
  | _, _ => false

/-- `apply_safety_caps`: thunderstorm and ice/freezing-rain ceilings at 2.0. -/
def apply_safety_caps (score_raw : ℚ) (weathercode : Option ℤ)
    (temp_c precip_mm : Option ℚ) : ℚ :=
  let s₁ :=
    if weathercode = some 95 ∨ weathercode = some 96 ∨ weathercode = some 99 then
      min score_raw 2
    else score_raw
  if ice_risk temp_c precip_mm = true ∨ weathercode = some 66 ∨ weathercode = some 67 then
    min s₁ 2
  else s₁

/-- `rain_cap`: ceiling at 5.0 whenever it is wet (amount > 0 or probability > 33). -/
def rain_cap (score_after_caps : ℚ) (precip_mm precip_prob : Option ℚ) : ℚ :=
  let wet : Bool :=
    (match precip_mm with | some p => decide (0 < p) | none => false) ||
    (match precip_prob with | some p => decide (33 < p) | none => false)
  if wet then min score_after_caps 5 else score_after_caps

/-- Python 3 `round` to the nearest integer, halves to the even neighbour. -/
def pyRound (x : ℚ) : ℤ :=
  if Int.fract x < 1 / 2 then ⌊x⌋
  else if 1 / 2 < Int.fract x then ⌊x⌋ + 1
  else if ⌊x⌋ % 2 = 0 then ⌊x⌋ else ⌊x⌋ + 1

/-- Python `int(...)` on a rational: truncation toward zero. -/
def int_trunc (x : ℚ) : ℤ := if x < 0 then ⌈x⌉ else ⌊x⌋

/-- The last line of `compute_sport_score`:
`int(clamp(round(score_capped), 1.0, 10.0))`. -/
def finalize (score_capped : ℚ) : ℤ :=
  int_trunc (clamp ((pyRound score_capped : ℤ) : ℚ) 1 10)

/-- `compute_sport_score`: the full pipeline producing the integer grade. -/
def compute_sport_score
    (apparent_temp precip_mm precip_prob wind_speed wind_gust uv_index
      visibility_m dew_point_c : Option ℚ)
    (weathercode : Option ℤ) (air_temp : Option ℚ) : ℤ :=
  let T := therm_comfort_score apparent_temp
  let R := precip_score precip_mm precip_prob weathercode
  let W := wind_score wind_speed wind_gust
  let U := uv_score uv_index
  let V := visibility_score visibility_m weathercode
  let H := humidity_dewpoint_score dew_point_c
  let C := code_baseline_score weathercode
  let score_raw :=
    0.25 * T + 0.35 * R + 0.10 * W + 0.15 * U + 0.05 * V + 0.05 * H + 0.05 * C
  let score_capped := apply_safety_caps score_raw weathercode air_temp precip_mm
  let score_capped := rain_cap score_capped precip_mm precip_prob
  finalize score_capped

/-- `score_to_rank_emoji`: ordinal rank symbol for a final grade. -/
def score_to_rank_emoji (score : ℤ) : String :=
  if 8 ≤ score then "🔝"
  else if 6 ≤ score then "↗️"
  else if 4 ≤ score then "➡️"
  else if 2 ≤ score then "↘️"
  else "⬇️"

/-! ### Definitions: branch structure of the condition-code lookups -/

/-- The branch structure shared by the icon and description chains: which of
the ten branches of the if/elif chain a condition code falls into. -/
def code_group (c : ℤ) : ℕ :=
  if c = 0 then 0
  else if c = 1 ∨ c = 2 ∨ c = 3 then 1
  else if c = 45 ∨ c = 48 then 2
  else if c = 51 ∨ c = 53 ∨ c = 55 ∨ c = 56 ∨ c = 57 then 3
  else if c = 61 ∨ c = 63 ∨ c = 65 ∨ c = 80 ∨ c = 81 ∨ c = 82 then 4
  else if c = 66 ∨ c = 67 then 5
  else if c = 71 ∨ c = 73 ∨ c = 75 ∨ c = 77 ∨ c = 85 ∨ c = 86 then 6
  else if c = 95 then 7
  else if c = 96 ∨ c = 99 then 8
  else 9

/-- The icon emitted by each branch of `map_weather_code_to_icon`. -/
def iconOfGroup (g : ℕ) : String :=
  if g = 0 then "🌞"
  else if g = 1 then "⛅"
  else if g = 2 then "🌁"
  else if g = 3 then "🌧️"
  else if g = 4 then "🌧️"
  else if g = 5 then "🌧️❄️"
  else if g = 6 then "🌨️"
  else if g = 7 then "⛈️"
  else if g = 8 then "🌩️❄️"
  else "❔"

/-- The description emitted by each branch of `map_weather_code_to_description`. -/
def descOfGroup (g : ℕ) : String :=
  if g = 0 then "sonnig"
  else if g = 1 then "bewölkt"
  else if g = 2 then "neblig"
  else if g = 3 then "Nieselregen"
  else if g = 4 then "regnerisch"
  else if g = 5 then "gefrierender Regen"
  else if g = 6 then "schneit"
  else if g = 7 then "Gewitter"
  else if g = 8 then "Gewitter mit Hagel"
  else "unbekannt"

/-! ### Definitions: Event Window Selector and calendar builder -/

/-- The parallel hourly arrays handed to `build_calendar`. A `time` entry is
the parse result of the raw timestamp string (`none` = malformed, see the
file-level comment); every meteorological array stores per-position values
that may themselves be absent, and an array may be shorter than `time`
(out-of-range reads yield `none`, as the source's bounds-checked getter
does). `relative_humidity_2m` and `cloud_cover` are fetched by the source
but unused by scoring. -/
structure HourlyData where
  time : List (Option ℤ)
  temperature_2m : List (Option ℚ)
  apparent_temperature : List (Option ℚ)
  weathercode : List (Option ℤ)
  precipitation_probability : List (Option ℚ)
  precipitation : List (Option ℚ)
  uv_index : List (Option ℚ)
  wind_speed_10m : List (Option ℚ)
  wind_gusts_10m : List (Option ℚ)
  relative_humidity_2m : List (Option ℚ)
  dew_point_2m : List (Option ℚ)
  visibility : List (Option ℚ)
  cloud_cover : List (Option ℚ)
deriving DecidableEq

/-- One emitted VEVENT block of the calendar document: the hour's positional
index (used in the UID), start/end timestamps, the computed grade, the icon
and description lookups, and the summary's numeric fields. The DTSTAMP
wall-clock instant and the decimal string rendering of SUMMARY are outside
every claim and are not modelled. -/
structure Event where
  idx : ℕ
  start : ℤ
  endTime : ℤ
  score : ℤ
  icon : String
  descr : String
  temp : Option ℚ
  prob : Option ℚ
  prec : Option ℚ
  uv : Option ℚ
deriving DecidableEq

/-- Local clock-hour component of a naive local timestamp in seconds. -/
def hourOf (t : ℤ) : ℤ := (t.ediv 3600).emod 24

/-- The body of `build_calendar`'s loop at position `idx`: skip a malformed
timestamp, skip hours outside `[now, cutoff]`, skip local clock-hours outside
`[5, 22]`, and otherwise emit the event block for this hour. -/
def eventAt (h : HourlyData) (now cutoff : ℤ) (idx : ℕ) : Option Event :=
  (h.time.getD idx none).bind fun start_dt =>
    if start_dt < now ∨ cutoff < start_dt then none
    else if hourOf start_dt < 5 ∨ 22 < hourOf start_dt then none
    else
      let code := h.weathercode.getD idx none
      some {
        idx := idx
        start := start_dt
        endTime := start_dt + 3600
        score := compute_sport_score (h.apparent_temperature.getD idx none)
          (h.precipitation.getD idx none) (h.precipitation_probability.getD idx none)
          (h.wind_speed_10m.getD idx none) (h.wind_gusts_10m.getD idx none)
          (h.uv_index.getD idx none) (h.visibility.getD idx none)
          (h.dew_point_2m.getD idx none) code (h.temperature_2m.getD idx none)
        icon := match code with
          | some c => map_weather_code_to_icon c
          | none => "❔"
        descr := match code with
          | some c => map_weather_code_to_description c
          | none => "unbekannt"
        temp := h.temperature_2m.getD idx none
        prob := h.precipitation_probability.getD idx none
        prec := h.precipitation.getD idx none
        uv := h.uv_index.getD idx none }

/-- `build_calendar`: iterate the `time` array with its positional index and
collect the event blocks the loop emits, in input order. The constant header
lines before the loop and the closing line carry no event data and are not
modelled. -/
def build_calendar (h : HourlyData) (now hours_ahead : ℤ) : List Event :=
  (List.range h.time.length).filterMap (eventAt h now (now + hours_ahead * 3600))

/-- Whether the hour at position `idx` of the time array survives the Event
Window Selector: it parses, lies in `[now, cutoff]`, and its local clock-hour
lies in `[5, 22]`. -/
def keepHour (ts : List (Option ℤ)) (now cutoff : ℤ) (idx : ℕ) : Bool :=
  match ts.getD idx none with
  | none => false
  | some t =>
    !decide (t < now ∨ cutoff < t) && !decide (hourOf t < 5 ∨ 22 < hourOf t)

/-- Concrete sample input for witnesses: two parseable hours at 05:00 and
06:00 local time, with every meteorological array empty. -/
def sampleHourly : HourlyData where
  time := [some 18000, some 21600]
  temperature_2m := []
  apparent_temperature := []
  weathercode := []
  precipitation_probability := []
  precipitation := []
  uv_index := []
  wind_speed_10m := []
  wind_gusts_10m := []
  relative_humidity_2m := []
  dew_point_2m := []
  visibility := []
  cloud_cover := []

/-- `sampleHourly` with temperature readings added (same time array). -/
def sampleHourlyTemps : HourlyData :=
  { sampleHourly with temperature_2m := [some 20, some 21] }

/-- An arbitrary event record at index 1, used as a witness input. -/
def sampleEvent : Event :=
  ⟨1, 0, 0, 0, "", "", none, none, none, none⟩

/-! ### Helper lemmas -/

lemma int_trunc_intCast (m : ℤ) : int_trunc ((m : ℤ) : ℚ) = m := by
  unfold int_trunc
  split_ifs <;> simp

lemma clamp_intCast (n : ℤ) : clamp ((n : ℤ) : ℚ) 1 10 = ((max 1 (min 10 n) : ℤ) : ℚ) := by
  unfold clamp
  push_cast
  rfl

lemma finalize_range (x : ℚ) : 1 ≤ finalize x ∧ finalize x ≤ 10 := by
  unfold finalize
  rw [clamp_intCast, int_trunc_intCast]
  refine ⟨le_max_left _ _, max_le (by norm_num) (min_le_left _ _)⟩

lemma ice_risk_iff (t p : Option ℚ) :
    ice_risk t p = true ↔ ∃ a b, t = some a ∧ p = some b ∧ a ≤ -2 ∧ 0 < b := by
  cases t <;> cases p <;> simp [ice_risk]

lemma code_group_lt (c : ℤ) : code_group c < 10 := by
  unfold code_group
  split_ifs <;> norm_num

lemma icon_factor (c : ℤ) : map_weather_code_to_icon c = iconOfGroup (code_group c) := by
  simp only [map_weather_code_to_icon, code_group]
  by_cases h0 : c = 0
  · simp only [if_pos h0]; rfl
  simp only [if_neg h0]
  by_cases h1 : c = 1 ∨ c = 2 ∨ c = 3
  · simp only [if_pos h1]; rfl
  simp only [if_neg h1]
  by_cases h2 : c = 45 ∨ c = 48
  · simp only [if_pos h2]; rfl
  simp only [if_neg h2]
  by_cases h3 : c = 51 ∨ c = 53 ∨ c = 55 ∨ c = 56 ∨ c = 57
  · simp only [if_pos h3]; rfl
  simp only [if_neg h3]
  by_cases h4 : c = 61 ∨ c = 63 ∨ c = 65 ∨ c = 80 ∨ c = 81 ∨ c = 82
  · simp only [if_pos h4]; rfl
  simp only [if_neg h4]
  by_cases h5 : c = 66 ∨ c = 67
  · simp only [if_pos h5]; rfl
  simp only [if_neg h5]
  by_cases h6 : c = 71 ∨ c = 73 ∨ c = 75 ∨ c = 77 ∨ c = 85 ∨ c = 86
  · simp only [if_pos h6]; rfl
  simp only [if_neg h6]
  by_cases h7 : c = 95
  · simp only [if_pos h7]; rfl
  simp only [if_neg h7]
  by_cases h8 : c = 96 ∨ c = 99
  · simp only [if_pos h8]; rfl
  simp only [if_neg h8]
  rfl

lemma desc_factor (c : ℤ) :
    map_weather_code_to_description c = descOfGroup (code_group c) := by
  simp only [map_weather_code_to_description, code_group]
  by_cases h0 : c = 0
  · simp only [if_pos h0]; rfl
  simp only [if_neg h0]
  by_cases h1 : c = 1 ∨ c = 2 ∨ c = 3
  · simp only [if_pos h1]; rfl
  simp only [if_neg h1]
  by_cases h2 : c = 45 ∨ c = 48
  · simp only [if_pos h2]; rfl
  simp only [if_neg h2]
  by_cases h3 : c = 51 ∨ c = 53 ∨ c = 55 ∨ c = 56 ∨ c = 57
  · simp only [if_pos h3]; rfl
  simp only [if_neg h3]
  by_cases h4 : c = 61 ∨ c = 63 ∨ c = 65 ∨ c = 80 ∨ c = 81 ∨ c = 82
  · simp only [if_pos h4]; rfl
  simp only [if_neg h4]
  by_cases h5 : c = 66 ∨ c = 67
  · simp only [if_pos h5]; rfl
  simp only [if_neg h5]
  by_cases h6 : c = 71 ∨ c = 73 ∨ c = 75 ∨ c = 77 ∨ c = 85 ∨ c = 86
  · simp only [if_pos h6]; rfl
  simp only [if_neg h6]
  by_cases h7 : c = 95
  · simp only [if_pos h7]; rfl
  simp only [if_neg h7]
  by_cases h8 : c = 96 ∨ c = 99
  · simp only [if_pos h8]; rfl
  simp only [if_neg h8]
  rfl

lemma fin_desc_icon :
    ∀ g1 g2 : Fin 10, descOfGroup g1.val = descOfGroup g2.val →
      iconOfGroup g1.val = iconOfGroup g2.val := by decide

lemma eventAt_idx {h : HourlyData} {now cutoff : ℤ} {i : ℕ} {e : Event}
    (he : eventAt h now cutoff i = some e) : e.idx = i := by
  unfold eventAt at he
  rcases Option.bind_eq_some.mp he with ⟨t, _, hsome⟩
  by_cases h1 : t < now ∨ cutoff < t
  · rw [if_pos h1] at hsome; simp at hsome
  rw [if_neg h1] at hsome
  by_cases h2 : hourOf t < 5 ∨ 22 < hourOf t
  · rw [if_pos h2] at hsome; simp at hsome
  rw [if_neg h2] at hsome
  obtain rfl := Option.some.inj hsome
  rfl

lemma eventAt_conds {h : HourlyData} {now cutoff : ℤ} {i : ℕ} {e : Event}
    (he : eventAt h now cutoff i = some e) :
    h.time.getD i none = some e.start ∧ now ≤ e.start ∧ e.start ≤ cutoff ∧
      5 ≤ hourOf e.start ∧ hourOf e.start ≤ 22 := by
  unfold eventAt at he
  rcases Option.bind_eq_some.mp he with ⟨t, ht, hsome⟩
  by_cases h1 : t < now ∨ cutoff < t
  · rw [if_pos h1] at hsome; simp at hsome
  rw [if_neg h1] at hsome
  by_cases h2 : hourOf t < 5 ∨ 22 < hourOf t
  · rw [if_pos h2] at hsome; simp at hsome
  rw [if_neg h2] at hsome
  obtain rfl := Option.some.inj hsome
  push_neg at h1 h2
  exact ⟨ht, h1.1, h1.2, h2.1, h2.2⟩

lemma eventAt_isSome_eq_keep (h : HourlyData) (now cutoff : ℤ) (i : ℕ) :
    (eventAt h now cutoff i).isSome = keepHour h.time now cutoff i := by
  unfold eventAt keepHour
  cases hts : h.time.getD i none with
  | none => rfl
  | some t =>
    show (if t < now ∨ cutoff < t then none else
      if hourOf t < 5 ∨ 22 < hourOf t then none else some _).isSome = _
    split_ifs with h1 h2
    · simp [decide_eq_true h1]
    · simp [decide_eq_false h1, decide_eq_true h2]
    · simp [decide_eq_false h1, decide_eq_false h2]

lemma map_idx_filterMap (h : HourlyData) (now cutoff : ℤ) (l : List ℕ) :
    (l.filterMap (eventAt h now cutoff)).map Event.idx
      = l.filter (keepHour h.time now cutoff) := by
  induction l with
  | nil => rfl
  | cons a l ih =>
    rw [List.filterMap_cons, List.filter_cons]
    cases hfa : eventAt h now cutoff a with
    | none =>
      have hk : keepHour h.time now cutoff a = false := by
        rw [← eventAt_isSome_eq_keep, hfa]; rfl
      rw [hk]
      simpa using ih
    | some e =>
      have hk : keepHour h.time now cutoff a = true := by
        rw [← eventAt_isSome_eq_keep, hfa]; rfl
      rw [hk]
      simp [ih, eventAt_idx hfa]

lemma mem_build_calendar {h : HourlyData} {now hours_ahead : ℤ} {e : Event} :
    e ∈ build_calendar h now hours_ahead ↔
      ∃ i, i < h.time.length ∧ eventAt h now (now + hours_ahead * 3600) i = some e := by
  unfold build_calendar
  simp [List.mem_filterMap, List.mem_range]

lemma getD_some_lt {l : List (Option ℤ)} {i : ℕ} {t : ℤ}
    (h : l.getD i none = some t) : i < l.length := by
  by_contra hn
  push_neg at hn
  rw [List.getD_eq_getElem?_getD, List.getElem?_eq_none hn] at h
  simp at h

/-! ### Claim theorems: scoring -/

/-- C1: For every combination of inputs (any optionally-absent meteorological
values and any condition code), `compute_sport_score` returns an integer in
{1,...,10}; it is never 0, even when every safety and rain cap applies and all
factor scores are 0. -/
theorem compute_sport_score_grade_range
    (apparent_temp precip_mm precip_prob wind_speed wind_gust uv_index
      visibility_m dew_point_c : Option ℚ)
    (weathercode : Option ℤ) (air_temp : Option ℚ) :
    1 ≤ compute_sport_score apparent_temp precip_mm precip_prob wind_speed
          wind_gust uv_index visibility_m dew_point_c weathercode air_temp ∧
    compute_sport_score apparent_temp precip_mm precip_prob wind_speed
          wind_gust uv_index visibility_m dew_point_c weathercode air_temp ≤ 10 :=
  finalize_range _

/-- C3: The Safety Cap Stage output never exceeds its input; a thunderstorm
code (plain or with hail) forces output ≤ 2.0; so does ice risk (air
temperature present and ≤ −2 °C with precipitation amount present and > 0) or
a freezing-rain code; and whenever any cap applies the output is exactly
`min score 2` — multiple applicable caps do not stack below 2.0. -/
theorem safety_cap_stage_spec (s : ℚ) (wc : Option ℤ) (t p : Option ℚ) :
    apply_safety_caps s wc t p ≤ s ∧
    ((wc = some 95 ∨ wc = some 96 ∨ wc = some 99) → apply_safety_caps s wc t p ≤ 2) ∧
    (((∃ a b, t = some a ∧ p = some b ∧ a ≤ -2 ∧ 0 < b) ∨ wc = some 66 ∨ wc = some 67) →
       apply_safety_caps s wc t p ≤ 2) ∧
    (((wc = some 95 ∨ wc = some 96 ∨ wc = some 99) ∨
      (∃ a b, t = some a ∧ p = some b ∧ a ≤ -2 ∧ 0 < b) ∨ wc = some 66 ∨ wc = some 67) →
       apply_safety_caps s wc t p = min s 2) := by
  have hice := ice_risk_iff t p
  simp only [apply_safety_caps]
  split_ifs with hA hB hB
  · exact ⟨le_trans (min_le_left _ _) (min_le_left _ _), fun _ => min_le_right _ _,
      fun _ => min_le_right _ _, fun _ => by rw [min_assoc, min_self]⟩
  · exact ⟨min_le_left _ _, fun _ => min_le_right _ _,
      fun _ => min_le_right _ _, fun _ => rfl⟩
  · exact ⟨min_le_left _ _, fun _ => min_le_right _ _,
      fun _ => min_le_right _ _, fun _ => rfl⟩
  · refine ⟨le_refl s, fun h => absurd h hB,
      fun h => absurd (h.imp hice.mpr id) hA, fun h => ?_⟩
    rcases h with h | h
    · exact absurd h hB
    · exact absurd (h.imp hice.mpr id) hA

/-- Witness for C3 at a thunderstorm code. -/
theorem safety_cap_stage_spec_witness : apply_safety_caps 9 (some 95) none none ≤ 2 :=
  (safety_cap_stage_spec 9 (some 95) none none).2.1 (Or.inl rfl)

/-- C4: The Rain Cap Stage returns `min s 5` (hence ≤ 5) exactly when wet
(amount present and > 0, or probability present and > 33), returns its input
unchanged otherwise, and in `compute_sport_score` it is applied to the output
of the Safety Cap Stage, strictly after it. -/
theorem rain_cap_stage_spec (s : ℚ) (pm pp : Option ℚ) :
    (((∃ a, pm = some a ∧ 0 < a) ∨ (∃ b, pp = some b ∧ 33 < b)) →
       rain_cap s pm pp = min s 5 ∧ rain_cap s pm pp ≤ 5) ∧
    (¬((∃ a, pm = some a ∧ 0 < a) ∨ (∃ b, pp = some b ∧ 33 < b)) →
       rain_cap s pm pp = s) ∧
    (∀ (app ws wg uvi vism dp at_ : Option ℚ) (wc : Option ℤ),
       compute_sport_score app pm pp ws wg uvi vism dp wc at_ =
         finalize (rain_cap (apply_safety_caps
           (0.25 * therm_comfort_score app + 0.35 * precip_score pm pp wc +
            0.10 * wind_score ws wg + 0.15 * uv_score uvi +
            0.05 * visibility_score vism wc + 0.05 * humidity_dewpoint_score dp +
            0.05 * code_baseline_score wc) wc at_ pm) pm pp)) := by
  have hwet : ((match pm with | some p => decide (0 < p) | none => false) ||
               (match pp with | some p => decide (33 < p) | none => false)) = true ↔
      ((∃ a, pm = some a ∧ 0 < a) ∨ (∃ b, pp = some b ∧ 33 < b)) := by
    cases pm <;> cases pp <;> simp
  refine ⟨fun h => ?_, fun h => ?_, fun app ws wg uvi vism dp at_ wc => rfl⟩
  · simp only [rain_cap]
    split_ifs with hw
    · exact ⟨rfl, min_le_right _ _⟩
    · exact absurd (hwet.mpr h) hw
  · simp only [rain_cap]
    split_ifs with hw
    · exact absurd (hwet.mp hw) h
    · rfl

/-- Witness for C4 at amount 1 mm. -/
theorem rain_cap_stage_spec_witness :
    rain_cap 8 (some 1) none = min 8 5 ∧ rain_cap 8 (some 1) none ≤ 5 :=
  (rain_cap_stage_spec 8 (some 1) none).1 (Or.inl ⟨1, rfl, by norm_num⟩)

/-- C5: The Thermal factor returns 5.0 when apparent temperature is absent,
otherwise 10 × clamp(1 − max(0, |T − 14| − 6)/12, 0, 1); exactly 10.0 on
[8, 20] °C and exactly 0.0 at ≤ −4 °C or ≥ 32 °C. -/
theorem thermal_factor_spec :
    therm_comfort_score none = 5 ∧
    (∀ t : ℚ, therm_comfort_score (some t) = 10 * clamp (1 - max 0 (|t - 14| - 6) / 12) 0 1) ∧
    (∀ t : ℚ, 8 ≤ t → t ≤ 20 → therm_comfort_score (some t) = 10) ∧
    (∀ t : ℚ, t ≤ -4 ∨ 32 ≤ t → therm_comfort_score (some t) = 0) := by
  refine ⟨rfl, fun t => ?_, fun t h8 h20 => ?_, fun t h => ?_⟩
  · simp only [therm_comfort_score]
    rw [mul_comm]
  · have habs : |t - 14| ≤ 6 := abs_le.mpr ⟨by linarith, by linarith⟩
    have hmax : max 0 (|t - 14| - 6) = 0 := max_eq_left (by linarith)
    simp only [therm_comfort_score, hmax]
    norm_num [clamp, min_def, max_def]
  · have hbig : 12 ≤ |t - 14| - 6 := by
      rcases h with h | h
      · rw [abs_of_nonpos (by linarith)]; linarith
      · rw [abs_of_nonneg (by linarith)]; linarith
    have hval : 1 - max 0 (|t - 14| - 6) / 12 ≤ 0 := by
      rw [max_eq_right (by linarith)]; linarith
    simp only [therm_comfort_score, clamp]
    rw [min_eq_right (le_trans hval (by norm_num)), max_eq_left hval, zero_mul]

/-- Witness for C5 at 14 °C, −4 °C, 32 °C and an absent reading. -/
theorem thermal_factor_spec_witness :
    therm_comfort_score (some 14) = 10 ∧ therm_comfort_score (some (-4)) = 0 ∧
    therm_comfort_score (some 32) = 0 ∧ therm_comfort_score none = 5 :=
  ⟨thermal_factor_spec.2.2.1 14 (by norm_num) (by norm_num),
   thermal_factor_spec.2.2.2 (-4) (Or.inl (by norm_num)),
   thermal_factor_spec.2.2.2 32 (Or.inr (by norm_num)),
   thermal_factor_spec.1⟩

/-- C6: The Precipitation factor returns exactly 0.0 for every code in the
freezing-rain/thunderstorm set regardless of amount/probability (present or
absent); otherwise 6.0 when amount or probability is absent; otherwise, with
E = amount × probability / 100, it returns 10.0 when E ≤ 0, 0.0 when E ≥ 2,
and 10 × (1 − E/2) in between. -/
theorem precip_factor_spec :
    (∀ (pm pp : Option ℚ) (wc : Option ℤ),
       (wc = some 66 ∨ wc = some 67 ∨ wc = some 95 ∨ wc = some 96 ∨ wc = some 99) →
       precip_score pm pp wc = 0) ∧
    (∀ (pm pp : Option ℚ) (wc : Option ℤ),
       ¬(wc = some 66 ∨ wc = some 67 ∨ wc = some 95 ∨ wc = some 96 ∨ wc = some 99) →
       (pm = none ∨ pp = none) → precip_score pm pp wc = 6) ∧
    (∀ (a b : ℚ) (wc : Option ℤ),
       ¬(wc = some 66 ∨ wc = some 67 ∨ wc = some 95 ∨ wc = some 96 ∨ wc = some 99) →
       ((a * b / 100 ≤ 0 → precip_score (some a) (some b) wc = 10) ∧
        (2 ≤ a * b / 100 → precip_score (some a) (some b) wc = 0) ∧
        (0 < a * b / 100 → a * b / 100 < 2 →
           precip_score (some a) (some b) wc = 10 * (1 - a * b / 100 / 2)))) := by
  refine ⟨fun pm pp wc h => ?_, fun pm pp wc h habs => ?_, fun a b wc h => ?_⟩
  · simp only [precip_score]
    rw [if_pos h]
  · rcases habs with h1 | h1 <;> subst h1
    · simp only [precip_score]
      rw [if_neg h]
    · cases pm <;> · simp only [precip_score]; rw [if_neg h]
  · refine ⟨fun hE => ?_, fun hE => ?_, fun hE1 hE2 => ?_⟩ <;>
      simp only [precip_score] <;> rw [if_neg h]
    · rw [if_pos hE]
    · rw [if_neg (by linarith), if_pos hE]
    · rw [if_neg (by linarith), if_neg (by linarith)]

/-- Witness for C6: amount 1 mm at probability 100 % under a clear-sky code
gives expected rate E = 1 and score 5.0. -/
theorem precip_factor_spec_witness : precip_score (some 1) (some 100) (some 0) = 5 := by
  have h := ((precip_factor_spec.2.2 1 100 (some 0)) (by decide)).2.2
    (by norm_num) (by norm_num)
  rw [h]
  norm_num

/-! ### Claim C2: the three condition-code lookups do not share one partition -/

/-- C2 counterexample: codes 51 and 61 share the icon 🌧️ but differ in
description; codes 51 and 56 share icon and description but have baseline
scores 6.0 and 2.0; codes 95 and 96 share baseline score 0.0 but differ in
icon and description. Hence the icon, description and baseline lookups do not
induce the same grouping of condition codes. -/
theorem lookup_partitions_counterexample :
    map_weather_code_to_icon 51 = map_weather_code_to_icon 61 ∧
    map_weather_code_to_description 51 ≠ map_weather_code_to_description 61 ∧
    map_weather_code_to_description 51 = map_weather_code_to_description 56 ∧
    map_weather_code_to_icon 51 = map_weather_code_to_icon 56 ∧
    code_baseline_score (some 51) ≠ code_baseline_score (some 56) ∧
    code_baseline_score (some 95) = code_baseline_score (some 96) ∧
    map_weather_code_to_icon 95 ≠ map_weather_code_to_icon 96 ∧
    map_weather_code_to_description 95 ≠ map_weather_code_to_description 96 := by
  refine ⟨rfl, ?_, rfl, rfl, ?_, rfl, ?_, ?_⟩ <;> decide

/-- C2 amended: of the pairwise grouping agreements between the three
condition-code lookups only one direction holds — any two condition codes with
the same description receive the same icon (the description partition refines
the icon partition). The converses, and every agreement involving the
baseline-score partition, fail (see the counterexample). -/
theorem description_refines_icon (c1 c2 : ℤ)
    (h : map_weather_code_to_description c1 = map_weather_code_to_description c2) :
    map_weather_code_to_icon c1 = map_weather_code_to_icon c2 := by
  rw [desc_factor, desc_factor] at h
  rw [icon_factor, icon_factor]
  exact fin_desc_icon ⟨code_group c1, code_group_lt c1⟩ ⟨code_group c2, code_group_lt c2⟩ h

/-- Witness for C2 amended at codes 61 and 63 (both described "regnerisch"). -/
theorem description_refines_icon_witness :
    map_weather_code_to_icon 61 = map_weather_code_to_icon 63 :=
  description_refines_icon 61 63 rfl

/-! ### Claim theorems: event window and calendar -/

/-- C7: `build_calendar` emits an event for a parseable hour at timestamp `t`
and position `i` exactly when `now ≤ t ≤ now + horizon` (inclusive at both
ends, so an hour exactly at `now` or exactly at the cutoff is included and one
strictly before `now` is excluded) and the local clock-hour lies in `[5, 22]`
(hours 4 and 23 excluded); and the surviving hours appear in the original
input order — the emitted index sequence is the in-order filter of the input
positions. -/
theorem event_window_selector_spec (h : HourlyData) (now hours_ahead : ℤ) :
    ((build_calendar h now hours_ahead).map Event.idx
       = (List.range h.time.length).filter
           (keepHour h.time now (now + hours_ahead * 3600))) ∧
    (∀ (i : ℕ) (t : ℤ),
       (∃ e ∈ build_calendar h now hours_ahead, e.idx = i ∧ e.start = t) ↔
         (h.time.getD i none = some t ∧ now ≤ t ∧ t ≤ now + hours_ahead * 3600 ∧
          5 ≤ hourOf t ∧ hourOf t ≤ 22)) := by
  constructor
  · exact map_idx_filterMap h now _ (List.range h.time.length)
  · intro i t
    constructor
    · rintro ⟨e, hmem, rfl, rfl⟩
      rcases mem_build_calendar.mp hmem with ⟨j, _, hje⟩
      have hidx := eventAt_idx hje
      rw [hidx]
      exact eventAt_conds hje
    · rintro ⟨hts, h1, h2, h3, h4⟩
      have hA : ¬(t < now ∨ now + hours_ahead * 3600 < t) := by push_neg; exact ⟨h1, h2⟩
      have hB : ¬(hourOf t < 5 ∨ 22 < hourOf t) := by push_neg; exact ⟨h3, h4⟩
      have hk : keepHour h.time now (now + hours_ahead * 3600) i = true := by
        unfold keepHour
        rw [hts]
        simp [decide_eq_false hA, decide_eq_false hB]
      have hsome : (eventAt h now (now + hours_ahead * 3600) i).isSome := by
        rw [eventAt_isSome_eq_keep]; exact hk
      rcases Option.isSome_iff_exists.mp hsome with ⟨e, he⟩
      refine ⟨e, mem_build_calendar.mpr ⟨i, getD_some_lt hts, he⟩, eventAt_idx he, ?_⟩
      have hstart := (eventAt_conds he).1
      rw [hts] at hstart
      exact (Option.some.inj hstart).symm

/-- Witness for C7: with two hours at 05:00 and 06:00 and `now` exactly at
05:00, the 05:00 hour is included. -/
theorem event_window_selector_spec_witness :
    ∃ e ∈ build_calendar sampleHourly 18000 24, e.idx = 0 ∧ e.start = 18000 :=
  ((event_window_selector_spec sampleHourly 18000 24).2 0 18000).mpr
    ⟨rfl, by decide, by decide, by decide, by decide⟩

/-- C8: replacing the timestamp at one position of the time array with a
malformed entry removes only that hour's event: no event carries that index,
and an event with any other index is produced if and only if it was produced
from the original data — the run continues over the remaining hours. -/
theorem malformed_timestamp_skip (h : HourlyData) (now hours_ahead : ℤ) (j : ℕ) :
    (∀ e ∈ build_calendar { h with time := h.time.set j none } now hours_ahead,
        e.idx ≠ j) ∧
    (∀ e : Event, e.idx ≠ j →
       (e ∈ build_calendar { h with time := h.time.set j none } now hours_ahead ↔
        e ∈ build_calendar h now hours_ahead)) := by
  have hgetD : ∀ i : ℕ, i ≠ j →
      (h.time.set j none).getD i none = h.time.getD i none := by
    intro i hij
    rw [List.getD_eq_getElem?_getD, List.getD_eq_getElem?_getD,
      List.getElem?_set_ne (Ne.symm hij)]
  have hnone : eventAt { h with time := h.time.set j none } now
      (now + hours_ahead * 3600) j = none := by
    unfold eventAt
    have hd : (h.time.set j none).getD j none = none := by
      rw [List.getD_eq_getElem?_getD, List.getElem?_set_self']
      cases h.time[j]? <;> rfl
    show ((h.time.set j none).getD j none).bind _ = none
    rw [hd]
    rfl
  have hagree : ∀ i : ℕ, i ≠ j →
      eventAt { h with time := h.time.set j none } now (now + hours_ahead * 3600) i
        = eventAt h now (now + hours_ahead * 3600) i := by
    intro i hij
    show ((h.time.set j none).getD i none).bind _ = (h.time.getD i none).bind _
    rw [hgetD i hij]
  constructor
  · intro e he hej
    rcases mem_build_calendar.mp he with ⟨i, _, hei⟩
    have hi : i = j := by rw [← eventAt_idx hei, hej]
    rw [hi] at hei
    rw [hnone] at hei
    cases hei
  · intro e hej
    constructor
    · intro he
      rcases mem_build_calendar.mp he with ⟨i, hi, hei⟩
      have hij : i ≠ j := by
        intro hh
        rw [hh, hnone] at hei
        cases hei
      rw [hagree i hij] at hei
      refine mem_build_calendar.mpr ⟨i, ?_, hei⟩
      simpa using hi
    · intro he
      rcases mem_build_calendar.mp he with ⟨i, hi, hei⟩
      have hij : i ≠ j := fun hh => hej (by rw [eventAt_idx hei, hh])
      refine mem_build_calendar.mpr ⟨i, ?_, ?_⟩
      · simpa using hi
      · rw [hagree i hij]; exact hei

/-- Witness for C8: an event record with index 1 is unaffected by damaging
the timestamp at index 0. -/
theorem malformed_timestamp_skip_witness :
    (sampleEvent ∈ build_calendar
        { sampleHourly with time := sampleHourly.time.set 0 none } 0 24 ↔
     sampleEvent ∈ build_calendar sampleHourly 0 24) :=
  (malformed_timestamp_skip sampleHourly 0 24 0).2 sampleEvent (by decide)

/-- C9: two inputs sharing the same time array (and the same `now` and hour
horizon) but with arbitrarily different optional meteorological field arrays
produce the same number of event blocks, and that count equals the number of
parseable hours inside both the forward-horizon window and the local-hour
band — absent field values never reduce eligibility. -/
theorem event_count_independent (h1 h2 : HourlyData) (now hours_ahead : ℤ)
    (heq : h1.time = h2.time) :
    (build_calendar h1 now hours_ahead).length
        = (build_calendar h2 now hours_ahead).length ∧
    (build_calendar h1 now hours_ahead).length
        = ((List.range h1.time.length).filter
            (keepHour h1.time now (now + hours_ahead * 3600))).length := by
  have key : ∀ hh : HourlyData, (build_calendar hh now hours_ahead).length =
      ((List.range hh.time.length).filter
        (keepHour hh.time now (now + hours_ahead * 3600))).length := by
    intro hh
    unfold build_calendar
    rw [← map_idx_filterMap]
    exact (List.length_map _ _).symm
  refine ⟨?_, key h1⟩
  rw [key h1, key h2, heq]

/-- Witness for C9: adding temperature readings to one of two otherwise equal
inputs leaves the event count unchanged. -/
theorem event_count_independent_witness :
    (build_calendar sampleHourly 18000 24).length
      = (build_calendar sampleHourlyTemps 18000 24).length :=
  (event_count_independent sampleHourly sampleHourlyTemps 18000 24 rfl).1
